import Mathlib

/-!
Shallow embedding of the mechanical-estimator dashboard
(src/estimator_dashboard.py): the dataset loader/normalizer (upload
dispatch, column renaming, total-cost derivation) and the scenario
pipeline (category/supplier filter, markup/waste adjustment, grand
total, category aggregation), together with theorems settling the
specification's claims about them.  Currency amounts, quantities and
percentages are modelled as exact rationals, so the spec's
"within floating-point epsilon" becomes exact equality.
-/

/-- One row of the normalized table, in the canonical column schema
(Item, Category, Quantity, Unit, Unit Price (€), Supplier,
Total Cost (€)). -/
structure LineItem where
  item : String
  category : String
  quantity : ℚ
  unit : String
  unitPrice : ℚ
  supplier : String
  totalCost : ℚ
deriving DecidableEq, Repr

/-- The normalized table: an ordered sequence of line items. -/
abbrev Dataset := List LineItem

/-- Lines 73-77 of the dashboard: `filtered_df = df.copy()`, then
`filtered_df = filtered_df[filtered_df['Category'] == category]` when
`category != "All"`, and the analogous filter for the supplier. -/
def filterStep (category supplier : String) (df : Dataset) : Dataset :=
  let filtered1 := if category ≠ "All" then df.filter (fun r => r.category == category) else df
  if supplier ≠ "All" then filtered1.filter (fun r => r.supplier == supplier) else filtered1

/-- A line item together with the three scenario columns added by
lines 84-86 of the dashboard. -/
structure AdjustedLineItem where
  base : LineItem
  adjustedQty : ℚ
  finalUnitPrice : ℚ
  adjustedCost : ℚ
deriving DecidableEq, Repr

/-- Lines 84-86: `Adjusted Qty = Quantity * (1 + waste/100)`,
`Final Unit Price = Unit Price (€) * (1 + markup/100)`,
`Adjusted Cost (€) = Adjusted Qty * Final Unit Price`, added
column-wise to the filtered frame. -/
def adjustStep (markup waste : ℚ) (df : Dataset) : List AdjustedLineItem :=
  df.map fun r =>
    let adjQty := r.quantity * (1 + waste / 100)
    let finPrice := r.unitPrice * (1 + markup / 100)
    { base := r, adjustedQty := adjQty, finalUnitPrice := finPrice,
      adjustedCost := adjQty * finPrice }

/-- Line 88: `total_adjusted_cost = filtered_df["Adjusted Cost (€)"].sum()`. -/
def totalAdjustedCost (rows : List AdjustedLineItem) : ℚ :=
  (rows.map fun r => r.adjustedCost).sum

/-- Line 103: `filtered_df.groupby("Category")["Adjusted Cost (€)"].sum()`
as an association list: one entry per distinct category of the filtered
rows, mapping it to the sum of `Adjusted Cost (€)` over its rows. -/
def categoryAggregate (rows : List AdjustedLineItem) : List (String × ℚ) :=
  ((rows.map fun r => r.base.category).dedup).map fun c =>
    (c, ((rows.filter fun r => r.base.category == c).map fun r => r.adjustedCost).sum)

/-- The whole scenario pipeline: filter, adjust, and return the adjusted
rows, the grand total and the category aggregate together. -/
def applyScenario (df : Dataset) (category supplier : String) (markup waste : ℚ) :
    List AdjustedLineItem × ℚ × List (String × ℚ) :=
  let adj := adjustStep markup waste (filterStep category supplier df)
  (adj, totalAdjustedCost adj, categoryAggregate adj)

/-- The grand total alone, as a function of the dataset and the four
scenario parameters. -/
def grandTotal (df : Dataset) (category supplier : String) (markup waste : ℚ) : ℚ :=
  totalAdjustedCost (adjustStep markup waste (filterStep category supplier df))

/-- The spec's example dataset: two rows, HVAC with quantity 10 at unit
price 5.0 and Piping with quantity 4 at unit price 12.5, total cost
derived as quantity times unit price at load. -/
def exampleDataset : Dataset :=
  [ { item := "Duct", category := "HVAC", quantity := 10, unit := "pc",
      unitPrice := 5, supplier := "Acme", totalCost := 50 },
    { item := "Pipe", category := "Piping", quantity := 4, unit := "m",
      unitPrice := 25/2, supplier := "Acme", totalCost := 50 } ]

theorem filterStep_sublist (category supplier : String) (df : Dataset) :
    List.Sublist (filterStep category supplier df) df := by
  unfold filterStep
  dsimp only
  split
  · exact (List.filter_sublist _).trans (by split <;> first | exact List.filter_sublist _ | exact List.Sublist.refl _)
  · split
    · exact List.filter_sublist _
    · exact List.Sublist.refl _

/-- C8: on the example dataset with filters All/All, markup 10 and
waste 0, the adjusted costs are [55, 55], the grand total is 110, and
the category aggregate maps HVAC to 55 and Piping to 55. -/
theorem C8_example_scenario :
    ((applyScenario exampleDataset "All" "All" 10 0).1.map fun r => r.adjustedCost) = [55, 55]
    ∧ (applyScenario exampleDataset "All" "All" 10 0).2.1 = 110
    ∧ (applyScenario exampleDataset "All" "All" 10 0).2.2 = [("HVAC", 55), ("Piping", 55)] := by
  refine ⟨?_, ?_, ?_⟩ <;>
    · simp [applyScenario, adjustStep, filterStep, totalAdjustedCost, categoryAggregate,
        exampleDataset, List.dedup_cons_of_not_mem]
      norm_num

/-- C10: the pipeline preserves row order and original fields: mapping
each adjusted row back to its original line item gives exactly the
filtered dataset, and the filtered dataset is a sublist (order-preserving
selection) of the input dataset. -/
theorem C10_row_order_preservation (df : Dataset) (category supplier : String) (markup waste : ℚ) :
    ((applyScenario df category supplier markup waste).1.map fun r => r.base)
      = filterStep category supplier df
    ∧ List.Sublist (filterStep category supplier df) df := by
  constructor
  · simp only [applyScenario, adjustStep, List.map_map]
    exact List.map_id _
  · exact filterStep_sublist category supplier df

/-- C2: every row surviving the filter gets the three scenario columns
computed by the stated formulas, and with markup 0 and waste 0 the
adjusted cost equals quantity times unit price. -/
theorem C2_adjustment_formulas (df : Dataset) (category supplier : String)
    (markup waste : ℚ) (r : AdjustedLineItem)
    (hr : r ∈ (applyScenario df category supplier markup waste).1) :
    r.adjustedQty = r.base.quantity * (1 + waste / 100)
    ∧ r.finalUnitPrice = r.base.unitPrice * (1 + markup / 100)
    ∧ r.adjustedCost = r.adjustedQty * r.finalUnitPrice
    ∧ (markup = 0 → waste = 0 →
        r.adjustedCost = r.base.quantity * r.base.unitPrice) := by
  simp only [applyScenario, adjustStep, List.mem_map] at hr
  obtain ⟨x, hx, rfl⟩ := hr
  refine ⟨rfl, rfl, rfl, ?_⟩
  rintro rfl rfl
  norm_num

/-- The first adjusted row of the example scenario, with its scenario
columns written in normalized form. -/
def exampleAdjustedRow : AdjustedLineItem :=
  { base := { item := "Duct", category := "HVAC", quantity := 10, unit := "pc",
              unitPrice := 5, supplier := "Acme", totalCost := 50 },
    adjustedQty := 10, finalUnitPrice := 11/2, adjustedCost := 55 }

/-- Witness for C2 at the example dataset with markup 10 and waste 0. -/
theorem C2_adjustment_formulas_witness :
    exampleAdjustedRow.adjustedQty = exampleAdjustedRow.base.quantity * (1 + (0:ℚ) / 100)
    ∧ exampleAdjustedRow.finalUnitPrice = exampleAdjustedRow.base.unitPrice * (1 + (10:ℚ) / 100)
    ∧ exampleAdjustedRow.adjustedCost = exampleAdjustedRow.adjustedQty * exampleAdjustedRow.finalUnitPrice
    ∧ ((10:ℚ) = 0 → (0:ℚ) = 0 →
        exampleAdjustedRow.adjustedCost = exampleAdjustedRow.base.quantity * exampleAdjustedRow.base.unitPrice) :=
  C2_adjustment_formulas exampleDataset "All" "All" 10 0 exampleAdjustedRow (by
    simp [applyScenario, adjustStep, filterStep, exampleDataset, exampleAdjustedRow]
    norm_num)

/-- C3: a row survives the filter iff it is in the dataset and matches
the category condition and the supplier condition; filtering by All/All
is the identity; filtering by a specific category keeps exactly the rows
of that category. -/
theorem C3_filter_semantics (df : Dataset) (category supplier : String) :
    (∀ r : LineItem, r ∈ filterStep category supplier df ↔
        r ∈ df ∧ (category = "All" ∨ r.category = category)
          ∧ (supplier = "All" ∨ r.supplier = supplier))
    ∧ filterStep "All" "All" df = df
    ∧ (category ≠ "All" →
        filterStep category "All" df = df.filter fun r => r.category == category) := by
  refine ⟨?_, ?_, ?_⟩
  · intro r
    by_cases hc : category = "All" <;> by_cases hs : supplier = "All" <;>
      simp [filterStep, hc, hs, List.mem_filter] <;> tauto
  · simp [filterStep]
  · intro h
    simp [filterStep, h]

/-- Witness for C3: filtering the example dataset by the specific
category HVAC keeps exactly its HVAC rows. -/
theorem C3_filter_semantics_witness :
    filterStep "HVAC" "All" exampleDataset
      = exampleDataset.filter (fun r => r.category == "HVAC") :=
  (C3_filter_semantics exampleDataset "HVAC" "All").2.2 (by decide)

theorem sum_map_filter_add (p : AdjustedLineItem → Bool) (rows : List AdjustedLineItem) :
    ((rows.filter p).map fun r => r.adjustedCost).sum
      + ((rows.filter fun r => !(p r)).map fun r => r.adjustedCost).sum
      = (rows.map fun r => r.adjustedCost).sum := by
  induction rows with
  | nil => simp
  | cons a l ih =>
    by_cases h : p a
    · simp [List.filter_cons, h]
      linarith [ih]
    · simp [List.filter_cons, h]
      linarith [ih]

theorem sum_over_groups (keys : List String) (rows : List AdjustedLineItem)
    (hnd : keys.Nodup) (hmem : ∀ r ∈ rows, r.base.category ∈ keys) :
    (keys.map fun c =>
        ((rows.filter fun r => r.base.category == c).map fun r => r.adjustedCost).sum).sum
      = (rows.map fun r => r.adjustedCost).sum := by
  induction keys generalizing rows with
  | nil =>
    have hrows : rows = [] := by
      cases rows with
      | nil => rfl
      | cons a l => exact absurd (hmem a (by simp)) (by simp)
    simp [hrows]
  | cons c keys ih =>
    have hnotin : c ∉ keys := (List.nodup_cons.mp hnd).1
    have hnd' : keys.Nodup := (List.nodup_cons.mp hnd).2
    have key_eq : ∀ c' ∈ keys,
        ((rows.filter fun r => !(r.base.category == c)).filter fun r => r.base.category == c')
          = rows.filter fun r => r.base.category == c' := by
      intro c' hc'
      rw [List.filter_filter]
      apply List.filter_congr
      intro a _
      by_cases h : a.base.category = c'
      · have hcc : c' ≠ c := fun e => hnotin (e ▸ hc')
        rw [h]
        simp [hcc]
      · simp [h]
    have hmem' : ∀ r ∈ rows.filter fun r => !(r.base.category == c), r.base.category ∈ keys := by
      intro r hr
      rw [List.mem_filter] at hr
      have hrc := hmem r hr.1
      rw [List.mem_cons] at hrc
      rcases hrc with h | h
      · exact absurd h (by simpa using hr.2)
      · exact h
    have ihx := ih (rows.filter fun r => !(r.base.category == c)) hnd' hmem'
    simp only [List.map_cons, List.sum_cons]
    rw [List.map_congr_left
      (fun c' hc' => by rw [← key_eq c' hc'] :
        ∀ c' ∈ keys, ((rows.filter fun r => r.base.category == c').map fun r => r.adjustedCost).sum
          = (((rows.filter fun r => !(r.base.category == c)).filter
              fun r => r.base.category == c').map fun r => r.adjustedCost).sum)]
    rw [ihx]
    exact sum_map_filter_add (fun r => r.base.category == c) rows

/-- C1: the grand total equals the sum of the category-aggregate values
and equals the sum of the adjusted costs over the adjusted rows. -/
theorem C1_consistency (df : Dataset) (category supplier : String) (markup waste : ℚ) :
    (applyScenario df category supplier markup waste).2.1
      = (((applyScenario df category supplier markup waste).2.2).map fun p => p.2).sum
    ∧ (applyScenario df category supplier markup waste).2.1
      = (((applyScenario df category supplier markup waste).1).map fun r => r.adjustedCost).sum := by
  constructor
  · simp only [applyScenario, categoryAggregate, List.map_map]
    exact (sum_over_groups _ _ (List.nodup_dedup _)
      (fun r hr => List.mem_dedup.mpr
        (List.mem_map_of_mem (fun r : AdjustedLineItem => r.base.category) hr))).symm
  · rfl

theorem totalAdjustedCost_factor (markup waste : ℚ) (rows : Dataset) :
    totalAdjustedCost (adjustStep markup waste rows)
      = (1 + waste / 100) * (1 + markup / 100)
        * ((rows.map fun r => r.quantity * r.unitPrice).sum) := by
  induction rows with
  | nil => simp [totalAdjustedCost, adjustStep]
  | cons a l ih =>
    simp only [totalAdjustedCost, adjustStep, List.map_cons, List.map_map,
      List.sum_cons] at ih ⊢
    rw [ih]
    ring

/-- A dataset with a negative unit price; the code does not reject
negative quantities or prices. -/
def negativePriceDataset : Dataset :=
  [ { item := "Credit", category := "HVAC", quantity := 1, unit := "pc",
      unitPrice := -1, supplier := "Acme", totalCost := -1 } ]

/-- C4 counterexample: on a dataset holding a row with a negative unit
price, raising the markup from 0 to 10 (waste and filters held fixed)
strictly decreases the grand total, so the monotonicity claim fails as
stated for arbitrary datasets. -/
theorem C4_counterexample :
    grandTotal negativePriceDataset "All" "All" 10 0
      < grandTotal negativePriceDataset "All" "All" 0 0 := by
  simp [grandTotal, totalAdjustedCost, adjustStep, filterStep, negativePriceDataset]

/-- C4 amended: for datasets whose rows all have nonnegative quantity
and nonnegative unit price, increasing the markup or the waste factor
(from nonnegative starting values, filters held fixed) never decreases
the grand total. -/
theorem C4_monotonicity_nonneg (df : Dataset) (category supplier : String)
    (hq : ∀ r ∈ df, 0 ≤ r.quantity) (hp : ∀ r ∈ df, 0 ≤ r.unitPrice)
    (m₁ m₂ w₁ w₂ : ℚ) (hm0 : 0 ≤ m₁) (hw0 : 0 ≤ w₁) (hm : m₁ ≤ m₂) (hw : w₁ ≤ w₂) :
    grandTotal df category supplier m₁ w₁ ≤ grandTotal df category supplier m₂ w₂ := by
  have hsub := filterStep_sublist category supplier df
  have hS : 0 ≤ ((filterStep category supplier df).map fun r => r.quantity * r.unitPrice).sum := by
    apply List.sum_nonneg
    intro x hx
    simp only [List.mem_map] at hx
    obtain ⟨r, hr, rfl⟩ := hx
    have hrdf := hsub.subset hr
    exact mul_nonneg (hq r hrdf) (hp r hrdf)
  rw [grandTotal, grandTotal, totalAdjustedCost_factor, totalAdjustedCost_factor]
  have h1 : (0:ℚ) ≤ 1 + w₁ / 100 := by linarith
  have h2 : (0:ℚ) ≤ 1 + m₁ / 100 := by linarith
  have h3 : 1 + w₁ / 100 ≤ 1 + w₂ / 100 := by linarith
  have h4 : 1 + m₁ / 100 ≤ 1 + m₂ / 100 := by linarith
  have hfac : (1 + w₁ / 100) * (1 + m₁ / 100) ≤ (1 + w₂ / 100) * (1 + m₂ / 100) :=
    mul_le_mul h3 h4 h2 (by linarith)
  exact mul_le_mul_of_nonneg_right hfac hS

/-- Witness for the amended C4 at the example dataset: raising markup
from 0 to 10 and waste from 0 to 5 does not decrease the grand total. -/
theorem C4_monotonicity_nonneg_witness :
    grandTotal exampleDataset "All" "All" 0 0 ≤ grandTotal exampleDataset "All" "All" 10 5 :=
  C4_monotonicity_nonneg exampleDataset "All" "All"
    (by
      intro r hr
      simp only [exampleDataset, List.mem_cons, List.mem_singleton] at hr
      rcases hr with rfl | rfl | h
      · norm_num
      · norm_num
      · simp at h)
    (by
      intro r hr
      simp only [exampleDataset, List.mem_cons, List.mem_singleton] at hr
      rcases hr with rfl | rfl | h
      · norm_num
      · norm_num
      · simp at h)
    0 10 0 5 le_rfl le_rfl (by norm_num) (by norm_num)

/-- A table cell: either a free-text value or a numeric value. -/
inductive Cell
  | str (s : String)
  | num (q : ℚ)
deriving DecidableEq, Repr

/-- A raw tabular frame as parsed from csv or spreadsheet input: named
columns in order, each holding the column's cells. -/
structure DataFrame where
  cols : List (String × List Cell)
deriving DecidableEq, Repr

/-- Column-presence test, as `n in df.columns`. -/
def DataFrame.hasCol (df : DataFrame) (n : String) : Bool :=
  df.cols.any fun p => p.1 == n

/-- Column lookup `df[n]`: the cells of the first column named `n`, or
none when the column is absent (a key-lookup failure in the source). -/
def DataFrame.getCol (df : DataFrame) (n : String) : Option (List Cell) :=
  (df.cols.find? fun p => p.1 == n).map fun p => p.2

/-- Column assignment `df[n] = v`: overwrite the column when present,
append it otherwise. -/
def DataFrame.setCol (df : DataFrame) (n : String) (v : List Cell) : DataFrame :=
  if df.hasCol n then
    ⟨df.cols.map fun p => if p.1 == n then (n, v) else p⟩
  else ⟨df.cols ++ [(n, v)]⟩

/-- Lines 54-62: the fixed localized-to-canonical column rename table. -/
def renameMapping : List (String × String) :=
  [("Item", "Item"), ("Categoria", "Category"), ("Quantidade", "Quantity"),
   ("Unidade", "Unit"), ("Preço Unitário (€)", "Unit Price (€)"),
   ("Fornecedor", "Supplier"), ("Custo Total (€)", "Total Cost (€)")]

/-- `df.rename(columns=..., inplace=True)`: mapped column names are
replaced, unmapped columns pass through unchanged. -/
def renameColumns (df : DataFrame) : DataFrame :=
  ⟨df.cols.map fun p =>
    (((renameMapping.find? fun q => q.1 == p.1).map fun q => q.2).getD p.1, p.2)⟩

/-- Errors of the load path.  `missingColumn` is the spec's
`MissingColumnError`, which the code itself never raises; `keyError` is
the generic lookup failure that accessing an absent column actually
raises, and `typeError` the failure of element-wise arithmetic on
non-numeric cells. -/
inductive LoadError
  | unsupportedFormat (name : String)
  | missingColumn (col : String)
  | keyError (col : String)
  | typeError
deriving DecidableEq, Repr

/-- Element-wise product of two columns, as in
`df["Quantity"] * df["Unit Price (€)"]`; fails on non-numeric cells. -/
def mulColumns : List Cell → List Cell → Option (List Cell)
  | [], [] => some []
  | Cell.num a :: xs, Cell.num b :: ys =>
    (mulColumns xs ys).map fun t => Cell.num (a * b) :: t
  | _, _ => none

/-- Lines 54-66: rename the columns, then derive `Total Cost (€)` as
`Quantity * Unit Price (€)` when that column is absent, leaving it
untouched when present.  A missing operand column raises a key-lookup
error, exactly as `df["Quantity"]` would in the source. -/
def normalizeFrame (df0 : DataFrame) : Except LoadError DataFrame :=
  let df := renameColumns df0
  if df.hasCol "Total Cost (€)" then Except.ok df
  else
    match df.getCol "Quantity" with
    | none => Except.error (LoadError.keyError "Quantity")
    | some qs =>
      match df.getCol "Unit Price (€)" with
      | none => Except.error (LoadError.keyError "Unit Price (€)")
      | some ps =>
        match mulColumns qs ps with
        | none => Except.error LoadError.typeError
        | some tc => Except.ok (df.setCol "Total Cost (€)" tc)

/-- Ordering used for the selectbox options; category and supplier
values are strings, on which this is the lexicographic order of
`sorted(...)`. -/
def Cell.leB : Cell → Cell → Bool
  | Cell.str a, Cell.str b => decide (a ≤ b)
  | Cell.num a, Cell.num b => decide (a ≤ b)
  | Cell.str _, Cell.num _ => true
  | Cell.num _, Cell.str _ => false

/-- Lines 70-71: the selectbox options for a column,
`["All"] + sorted(df[n].unique().tolist())`; accessing an absent column
raises a key-lookup error. -/
def selectOptions (df : DataFrame) (n : String) : Except LoadError (List Cell) :=
  match df.getCol n with
  | none => Except.error (LoadError.keyError n)
  | some cs => Except.ok (Cell.str "All" :: cs.dedup.mergeSort Cell.leB)

/-- The load prelude: normalize the frame (lines 54-66), then collect
the category and supplier filter options (lines 70-71). -/
def loadPrelude (df0 : DataFrame) :
    Except LoadError (DataFrame × List Cell × List Cell) :=
  match normalizeFrame df0 with
  | Except.error e => Except.error e
  | Except.ok df =>
    match selectOptions df "Category" with
    | Except.error e => Except.error e
    | Except.ok cats =>
      match selectOptions df "Supplier" with
      | Except.error e => Except.error e
      | Except.ok sups => Except.ok (df, cats, sups)

/-- Whether a load-path computation succeeded. -/
def loadOk {α : Type} : Except LoadError α → Bool
  | Except.ok _ => true
  | Except.error _ => false

theorem getCol_eq_none_of_hasCol_false {df : DataFrame} {n : String}
    (h : df.hasCol n = false) : df.getCol n = none := by
  simp only [DataFrame.hasCol, List.any_eq_false] at h
  have : (df.cols.find? fun p => p.1 == n) = none := List.find?_eq_none.mpr h
  simp [DataFrame.getCol, this]

theorem getCol_isSome_of_hasCol {df : DataFrame} {n : String}
    (h : df.hasCol n = true) : ∃ cs, df.getCol n = some cs := by
  simp only [DataFrame.hasCol, List.any_eq_true] at h
  have hs : (df.cols.find? fun p => p.1 == n).isSome := List.find?_isSome.mpr h
  rcases Option.isSome_iff_exists.mp hs with ⟨p, hp⟩
  exact ⟨p.2, by simp [DataFrame.getCol, hp]⟩

theorem normalizeFrame_error_shape (df0 : DataFrame) (e : LoadError)
    (h : normalizeFrame df0 = Except.error e) :
    (∃ c, e = LoadError.keyError c) ∨ e = LoadError.typeError := by
  unfold normalizeFrame at h
  dsimp only at h
  split at h
  · exact absurd h (by simp)
  · split at h
    · exact Or.inl ⟨"Quantity", by injection h with h; rw [← h]⟩
    · split at h
      · exact Or.inl ⟨"Unit Price (€)", by injection h with h; rw [← h]⟩
      · split at h
        · exact Or.inr (by injection h with h; rw [← h])
        · exact absurd h (by simp)

theorem selectOptions_error_shape (df : DataFrame) (n : String) (e : LoadError)
    (h : selectOptions df n = Except.error e) : e = LoadError.keyError n := by
  unfold selectOptions at h
  split at h
  · injection h with h
    rw [← h]
  · exact absurd h (by simp)

theorem loadPrelude_no_missingColumn (df0 : DataFrame) (c : String) :
    loadPrelude df0 ≠ Except.error (LoadError.missingColumn c) := by
  intro h
  unfold loadPrelude at h
  split at h
  · injection h with h
    rcases normalizeFrame_error_shape df0 _ (by assumption) with ⟨c', hc'⟩ | hc' <;>
      simp [h] at hc'
  · split at h
    · injection h with h
      have := selectOptions_error_shape _ _ _ (by assumption)
      simp [h] at this
    · split at h
      · injection h with h
        have := selectOptions_error_shape _ _ _ (by assumption)
        simp [h] at this
      · exact absurd h (by simp)

/-- A source table that, after renaming, has every canonical column
except `Item`. -/
def tableWithoutItem : DataFrame :=
  ⟨[("Categoria", [Cell.str "HVAC"]), ("Quantidade", [Cell.num 2]),
    ("Unidade", [Cell.str "pc"]), ("Preço Unitário (€)", [Cell.num 3]),
    ("Fornecedor", [Cell.str "Acme"])]⟩

/-- C5 counterexample: a table lacking the required `Item` column is not
rejected at all — the load prelude succeeds — so no `MissingColumnError`
(nor any error) is raised for it. -/
theorem C5_counterexample :
    (renameColumns tableWithoutItem).hasCol "Item" = false
    ∧ loadOk (loadPrelude tableWithoutItem) = true := by
  constructor
  · decide
  · decide

/-- C5 amended: the code has no `MissingColumnError`.  After renaming,
when `Total Cost (€)` is absent a missing `Quantity` or
`Unit Price (€)` column fails the total-cost computation with a generic
key-lookup error naming that column; a missing `Category` or `Supplier`
column fails filter-option collection with a key-lookup error; and no
input ever produces `missingColumn` (a missing `Item` column in
particular is not rejected). -/
theorem C5_missing_column_behavior (df0 : DataFrame) :
    ((renameColumns df0).hasCol "Total Cost (€)" = false →
      (renameColumns df0).hasCol "Quantity" = false →
        loadPrelude df0 = Except.error (LoadError.keyError "Quantity"))
    ∧ ((renameColumns df0).hasCol "Total Cost (€)" = false →
      (renameColumns df0).hasCol "Quantity" = true →
      (renameColumns df0).hasCol "Unit Price (€)" = false →
        loadPrelude df0 = Except.error (LoadError.keyError "Unit Price (€)"))
    ∧ ((renameColumns df0).hasCol "Total Cost (€)" = true →
      (renameColumns df0).hasCol "Category" = false →
        loadPrelude df0 = Except.error (LoadError.keyError "Category"))
    ∧ ((renameColumns df0).hasCol "Total Cost (€)" = true →
      (renameColumns df0).hasCol "Category" = true →
      (renameColumns df0).hasCol "Supplier" = false →
        loadPrelude df0 = Except.error (LoadError.keyError "Supplier"))
    ∧ ∀ c, loadPrelude df0 ≠ Except.error (LoadError.missingColumn c) := by
  refine ⟨?_, ?_, ?_, ?_, loadPrelude_no_missingColumn df0⟩
  · intro htc hq
    have hnorm : normalizeFrame df0 = Except.error (LoadError.keyError "Quantity") := by
      unfold normalizeFrame
      simp [htc, getCol_eq_none_of_hasCol_false hq]
    unfold loadPrelude
    rw [hnorm]
  · intro htc hq hp
    rcases getCol_isSome_of_hasCol hq with ⟨qs, hqs⟩
    have hnorm : normalizeFrame df0 = Except.error (LoadError.keyError "Unit Price (€)") := by
      unfold normalizeFrame
      simp [htc, hqs, getCol_eq_none_of_hasCol_false hp]
    unfold loadPrelude
    rw [hnorm]
  · intro htc hcat
    have hnorm : normalizeFrame df0 = Except.ok (renameColumns df0) := by
      unfold normalizeFrame
      simp [htc]
    have hopts : selectOptions (renameColumns df0) "Category"
        = Except.error (LoadError.keyError "Category") := by
      unfold selectOptions
      rw [getCol_eq_none_of_hasCol_false hcat]
    unfold loadPrelude
    rw [hnorm]
    dsimp only
    rw [hopts]
  · intro htc hcat hsup
    have hnorm : normalizeFrame df0 = Except.ok (renameColumns df0) := by
      unfold normalizeFrame
      simp [htc]
    rcases getCol_isSome_of_hasCol hcat with ⟨cs, hcs⟩
    have hopts : selectOptions (renameColumns df0) "Category"
        = Except.ok (Cell.str "All" :: cs.dedup.mergeSort Cell.leB) := by
      unfold selectOptions
      rw [hcs]
    have hsups : selectOptions (renameColumns df0) "Supplier"
        = Except.error (LoadError.keyError "Supplier") := by
      unfold selectOptions
      rw [getCol_eq_none_of_hasCol_false hsup]
    unfold loadPrelude
    rw [hnorm]
    dsimp only
    rw [hopts]
    dsimp only
    rw [hsups]

/-- A source table lacking `Unit Price (€)` (and `Total Cost (€)`). -/
def tableWithoutPrice : DataFrame :=
  ⟨[("Item", [Cell.str "Duct"]), ("Categoria", [Cell.str "HVAC"]),
    ("Quantidade", [Cell.num 2]), ("Fornecedor", [Cell.str "Acme"])]⟩

/-- Witness for the amended C5: the table lacking `Unit Price (€)`
fails with the key-lookup error naming that column. -/
theorem C5_missing_column_behavior_witness :
    loadPrelude tableWithoutPrice = Except.error (LoadError.keyError "Unit Price (€)") :=
  (C5_missing_column_behavior tableWithoutPrice).2.1 (by decide) (by decide) (by decide)

theorem mulColumns_get {qs ps tc : List Cell} (h : mulColumns qs ps = some tc) :
    ∀ (i : Nat) (a b : ℚ), qs[i]? = some (Cell.num a) → ps[i]? = some (Cell.num b) →
      tc[i]? = some (Cell.num (a * b)) := by
  induction qs generalizing ps tc with
  | nil =>
    intro i a b hq hp
    simp at hq
  | cons x xs ih =>
    cases ps with
    | nil =>
      cases x <;> simp [mulColumns] at h
    | cons y ys =>
      cases x with
      | str s => simp [mulColumns] at h
      | num a' =>
        cases y with
        | str s => simp [mulColumns] at h
        | num b' =>
          simp only [mulColumns, Option.map_eq_some'] at h
          rcases h with ⟨t, ht, rfl⟩
          intro i a b hq hp
          cases i with
          | zero =>
            simp only [List.getElem?_cons_zero, Option.some_inj] at hq hp
            injection hq with hq
            injection hp with hp
            simp [← hq, ← hp]
          | succ n =>
            simp only [List.getElem?_cons_succ] at hq hp ⊢
            exact ih ht n a b hq hp

/-- C7: after renaming, when `Total Cost (€)` is present the loader
returns the frame unchanged (every row's total cost left exactly as
given, no recomputation); when absent, it extends the frame with a
`Total Cost (€)` column whose every row equals quantity times unit
price. -/
theorem C7_total_cost_derive_or_keep (df0 : DataFrame) :
    ((renameColumns df0).hasCol "Total Cost (€)" = true →
      normalizeFrame df0 = Except.ok (renameColumns df0))
    ∧ (∀ qs ps tc,
        (renameColumns df0).hasCol "Total Cost (€)" = false →
        (renameColumns df0).getCol "Quantity" = some qs →
        (renameColumns df0).getCol "Unit Price (€)" = some ps →
        mulColumns qs ps = some tc →
        normalizeFrame df0 = Except.ok ((renameColumns df0).setCol "Total Cost (€)" tc)
        ∧ ∀ (i : Nat) (a b : ℚ), qs[i]? = some (Cell.num a) → ps[i]? = some (Cell.num b) →
            tc[i]? = some (Cell.num (a * b))) := by
  constructor
  · intro h
    unfold normalizeFrame
    simp [h]
  · intro qs ps tc htc hq hp hm
    refine ⟨?_, mulColumns_get hm⟩
    unfold normalizeFrame
    simp [htc, hq, hp, hm]

/-- The example source table in its localized raw form, lacking a total
cost column. -/
def rawExampleTable : DataFrame :=
  ⟨[("Item", [Cell.str "Duct", Cell.str "Pipe"]),
    ("Categoria", [Cell.str "HVAC", Cell.str "Piping"]),
    ("Quantidade", [Cell.num 10, Cell.num 4]),
    ("Unidade", [Cell.str "pc", Cell.str "m"]),
    ("Preço Unitário (€)", [Cell.num 5, Cell.num (25/2)]),
    ("Fornecedor", [Cell.str "Acme", Cell.str "Acme"])]⟩

/-- Witness for C7: on the raw example table the loader derives the
total-cost column as the element-wise product. -/
theorem C7_total_cost_derive_or_keep_witness :
    normalizeFrame rawExampleTable
      = Except.ok ((renameColumns rawExampleTable).setCol "Total Cost (€)"
          [Cell.num (10 * 5), Cell.num (4 * (25/2))]) :=
  ((C7_total_cost_derive_or_keep rawExampleTable).2
    [Cell.num 10, Cell.num 4] [Cell.num 5, Cell.num (25/2)]
    [Cell.num (10 * 5), Cell.num (4 * (25/2))]
    (by decide) rfl rfl rfl).1

/-- True when `s` ends with `suf`, as Python `str.endswith`. -/
def strEndsWith (s suf : String) : Bool := decide (suf.data <:+ s.data)

/-- The format an uploaded file is parsed as. -/
inductive FileFormat
  | csv
  | spreadsheet
deriving DecidableEq, Repr

/-- Line 45: the uploader widget accepts only files carrying a `.csv`
or `.xlsx` extension (`type=["csv", "xlsx"]`); any other upload is
refused before any processing. -/
def acceptedByUploader (name : String) : Bool :=
  strEndsWith name ".csv" || strEndsWith name ".xlsx"

/-- Lines 45-51: an accepted upload is parsed as csv when its name ends
with `.csv` (`uploaded_file.name.endswith(".csv")`) and as a
spreadsheet otherwise; an unaccepted name is rejected as an unsupported
format with no partial processing. -/
def classifyUpload (name : String) : Except LoadError FileFormat :=
  if acceptedByUploader name then
    if strEndsWith name ".csv" then Except.ok FileFormat.csv
    else Except.ok FileFormat.spreadsheet
  else Except.error (LoadError.unsupportedFormat name)

/-- C6: a file whose name ends in neither `.csv` nor `.xlsx` is
rejected as an unsupported format; a file ending in `.csv` is parsed as
csv; a file ending in `.xlsx` is parsed as a spreadsheet. -/
theorem C6_upload_format (name : String) :
    (strEndsWith name ".csv" = false → strEndsWith name ".xlsx" = false →
      classifyUpload name = Except.error (LoadError.unsupportedFormat name))
    ∧ (strEndsWith name ".csv" = true → classifyUpload name = Except.ok FileFormat.csv)
    ∧ (strEndsWith name ".xlsx" = true →
        classifyUpload name = Except.ok FileFormat.spreadsheet) := by
  refine ⟨?_, ?_, ?_⟩
  · intro h1 h2
    simp [classifyUpload, acceptedByUploader, h1, h2]
  · intro h
    simp [classifyUpload, acceptedByUploader, h]
  · intro h
    have hcsv : strEndsWith name ".csv" = false := by
      by_contra hc
      rw [Bool.not_eq_false] at hc
      unfold strEndsWith at hc h
      have h1 : (".csv".data : List Char) <:+ name.data := of_decide_eq_true hc
      have h2 : (".xlsx".data : List Char) <:+ name.data := of_decide_eq_true h
      rcases List.suffix_or_suffix_of_suffix h1 h2 with hs | hs
      · exact absurd hs (by decide)
      · exact absurd hs (by decide)
    simp [classifyUpload, acceptedByUploader, h, hcsv]

/-- Witness for C6: a file named `bom.xlsx` is parsed as a spreadsheet. -/
theorem C6_upload_format_witness :
    classifyUpload "bom.xlsx" = Except.ok FileFormat.spreadsheet :=
  (C6_upload_format "bom.xlsx").2.2 (by decide)

/-- A frame row as the dashboard's dataframes hold it: the original
line-item columns plus the three scenario columns, absent until
assigned. -/
structure AdjRow where
  base : LineItem
  adjustedQty : Option ℚ
  finalUnitPrice : Option ℚ
  adjustedCost : Option ℚ
deriving DecidableEq, Repr

/-- A frame object: an ordered list of rows. -/
abbrev Frame := List AdjRow

/-- The store of live frame objects; a Python variable holds an index
into it. -/
abbrev FrameHeap := List Frame

/-- Read the frame a variable refers to. -/
def hread (h : FrameHeap) (i : Nat) : Frame := h.getD i []

/-- Mutate the frame object a variable refers to, in place. -/
def hwrite (h : FrameHeap) (i : Nat) (f : Frame) : FrameHeap := h.set i f

/-- The frame of a freshly loaded dataset: original columns only, no
scenario columns yet. -/
def loadedFrame (df : Dataset) : Frame :=
  df.map fun r =>
    { base := r, adjustedQty := none, finalUnitPrice := none, adjustedCost := none }

/-- Lines 73-86 as heap operations: `filtered_df = df.copy()` allocates
a fresh object at the end of the store; each
`filtered_df = filtered_df[...]` rebinds the variable to a freshly
allocated filtered object; each column assignment
`filtered_df[...] = ...` mutates the referenced object in place.
Returns the final heap together with the reference held by
`filtered_df`. -/
def scenarioProgram (h0 : FrameHeap) (dfRef : Nat) (category supplier : String)
    (markup waste : ℚ) : FrameHeap × Nat :=
  let h1 := h0 ++ [hread h0 dfRef]
  let f1 := h0.length
  let h2 := if category ≠ "All" then
      h1 ++ [(hread h1 f1).filter fun r => r.base.category == category] else h1
  let f2 := if category ≠ "All" then h1.length else f1
  let h3 := if supplier ≠ "All" then
      h2 ++ [(hread h2 f2).filter fun r => r.base.supplier == supplier] else h2
  let f3 := if supplier ≠ "All" then h2.length else f2
  let h4 := hwrite h3 f3 ((hread h3 f3).map fun r =>
    { r with adjustedQty := some (r.base.quantity * (1 + waste / 100)) })
  let h5 := hwrite h4 f3 ((hread h4 f3).map fun r =>
    { r with finalUnitPrice := some (r.base.unitPrice * (1 + markup / 100)) })
  let h6 := hwrite h5 f3 ((hread h5 f3).map fun r =>
    { r with adjustedCost := some (r.adjustedQty.getD 0 * r.finalUnitPrice.getD 0) })
  (h6, f3)

theorem hread_append_lt (h : FrameHeap) (f : Frame) (i : Nat) (hi : i < h.length) :
    hread (h ++ [f]) i = hread h i := by
  simp [hread, List.getD, List.getElem?_append_left hi]

theorem hread_hwrite_ne (h : FrameHeap) (j : Nat) (f : Frame) (i : Nat) (hne : j ≠ i) :
    hread (hwrite h j f) i = hread h i := by
  simp [hread, hwrite, List.getD, List.getElem?_set_ne hne]

theorem hread_hwrite3_ne (h : FrameHeap) (j : Nat) (f1 f2 f3 : Frame) (i : Nat)
    (hne : j ≠ i) :
    hread (hwrite (hwrite (hwrite h j f1) j f2) j f3) i = hread h i := by
  rw [hread_hwrite_ne _ _ _ _ hne, hread_hwrite_ne _ _ _ _ hne,
    hread_hwrite_ne _ _ _ _ hne]

/-- C9: running the scenario pipeline never mutates the input dataset's
frame: whatever object the store holds at the dataset's reference
before the run, it holds afterwards, original rows, columns and absent
scenario columns included; only the freshly allocated copy is written. -/
theorem C9_no_input_mutation (h0 : FrameHeap) (dfRef : Nat) (category supplier : String)
    (markup waste : ℚ) (href : dfRef < h0.length) :
    hread (scenarioProgram h0 dfRef category supplier markup waste).1 dfRef
      = hread h0 dfRef := by
  unfold scenarioProgram
  dsimp only
  split_ifs with hc hs
  all_goals rw [hread_hwrite3_ne]
  all_goals
    try (simp only [List.length_append, List.length_cons, List.length_nil]; omega)
  all_goals repeat rw [hread_append_lt]
  all_goals
    try simp only [List.length_append, List.length_cons, List.length_nil]
  all_goals omega

/-- Witness for C9: on a store holding the loaded example dataset, the
pipeline leaves the input frame untouched. -/
theorem C9_no_input_mutation_witness :
    hread (scenarioProgram [loadedFrame exampleDataset] 0 "All" "All" 10 0).1 0
      = hread [loadedFrame exampleDataset] 0 :=
  C9_no_input_mutation [loadedFrame exampleDataset] 0 "All" "All" 10 0 (by decide)
